import Mathlib

/-!
Shallow embedding of the `pyant` grid / ant engine (ant/grid.py, ant/types.py).

Python integers are modelled as `Int`; Python `%` (always returning a value
with the sign of the modulus) is `Int.emod`, which is the Lean `%` on `Int`.
Python dicts are modelled as association lists with in-place overwrite
(preserving insertion order, as Python dicts do) and `dict.pop(key)`
without a default raising `KeyError` when the key is absent.
Python exceptions are modelled with an explicit error type; functions that
mutate state before possibly raising return the state as mutated at the
point of the raise, together with the raised error, so that partial
mutation is observable exactly as it is to a Python caller that catches
the exception.
-/

namespace PyAnt

/-- Type `CardinalDirection` from ant/types.py: an IntEnum with values 1..8. -/
inductive CardinalDirection : Type
  | NORTH
  | NORTH_EAST
  | EAST
  | SOUTH_EAST
  | SOUTH
  | SOUTH_WEST
  | WEST
  | NORTH_WEST
deriving DecidableEq, Repr

open CardinalDirection

/-- The IntEnum value of each direction (ant/types.py). -/
def CardinalDirection.value : CardinalDirection → Nat
  | NORTH => 1
  | NORTH_EAST => 2
  | EAST => 3
  | SOUTH_EAST => 4
  | SOUTH => 5
  | SOUTH_WEST => 6
  | WEST => 7
  | NORTH_WEST => 8

/-- Type `Vector` from ant/grid.py: an integer displacement. -/
structure Vector : Type where
  dx : Int
  dy : Int
deriving DecidableEq, Repr

/-- Type `GridCoord` from ant/grid.py: an integer coordinate. -/
structure GridCoord : Type where
  x : Int
  y : Int
deriving DecidableEq, Repr

/-- Method `GridCoord.__add__`: coordinate plus displacement. -/
def GridCoord.add (c : GridCoord) (v : Vector) : GridCoord :=
  ⟨c.x + v.dx, c.y + v.dy⟩

/-- The Python exceptions that the embedded code can raise:
`InvalidCoord` and `InvalidDirection` from ant/grid.py, plus the builtin
`KeyError` (dict lookup / `dict.pop` without default) and `ValueError`
(`list.index` on a missing element). -/
inductive Err : Type
  | invalidCoord (coord : GridCoord)
  | invalidDirection (direction : CardinalDirection) (coord : GridCoord)
  | keyError
  | valueError
deriving DecidableEq, Repr

/-- Python `dict.get(key)`: first (and only) binding of the key. -/
def dictGet {α β : Type} [DecidableEq α] : List (α × β) → α → Option β
  | [], _ => none
  | (k, v) :: rest, key => if k = key then some v else dictGet rest key

/-- Python `dict[key] = value`: overwrite in place, else append (insertion
order is preserved, as for Python dicts). -/
def dictInsert {α β : Type} [DecidableEq α] : List (α × β) → α → β → List (α × β)
  | [], key, value => [(key, value)]
  | (k, v) :: rest, key, value =>
      if k = key then (key, value) :: rest else (k, v) :: dictInsert rest key value

/-- Python `dict.pop(key)` with no default: `none` models the `KeyError`. -/
def dictPop {α β : Type} [DecidableEq α] : List (α × β) → α → Option (List (α × β))
  | [], _ => none
  | (k, v) :: rest, key =>
      if k = key then some rest else (dictPop rest key).map (fun m => (k, v) :: m)

/-- Python `list.index`: `none` models the `ValueError`. -/
def listIndex {α : Type} [DecidableEq α] : List α → α → Option Nat
  | [], _ => none
  | a :: rest, key => if a = key then some 0 else (listIndex rest key).map (· + 1)

/-- Insert a direction into a list sorted ascending by IntEnum value. -/
def insertSorted (d : CardinalDirection) : List CardinalDirection → List CardinalDirection
  | [] => [d]
  | e :: rest =>
      if d.value ≤ e.value then d :: e :: rest else e :: insertSorted d rest

/-- Python `sorted` over directions (IntEnum sorts by numeric value). -/
def sortDirs (l : List CardinalDirection) : List CardinalDirection :=
  l.foldr insertSorted []

/-- The three concrete `Grid` subclasses of ant/grid.py. -/
inductive Topology : Type
  | square
  | hex
  | triangle
deriving DecidableEq, Repr

/-- Method `_validate_coord`: all coords are valid on square and hex grids;
`TriangleGrid._validate_coord` accepts only `x % 2 == y % 2`. -/
def validateCoord : Topology → GridCoord → Bool
  | .square, _ => true
  | .hex, _ => true
  | .triangle, c => c.x % 2 = c.y % 2

/-- Method `TriangleGrid.is_even`: `coord.x % 2 == 0`. -/
def triangleIsEven (c : GridCoord) : Bool :=
  c.x % 2 = 0

/-- Method `get_direction_vectors` of each subclass, as association lists in the
Python dict insertion order. -/
def directionVectors : Topology → GridCoord → List (CardinalDirection × Vector)
  | .square, _ =>
      [(NORTH, ⟨0, -1⟩), (EAST, ⟨1, 0⟩), (SOUTH, ⟨0, 1⟩), (WEST, ⟨-1, 0⟩)]
  | .hex, c =>
      if c.y % 2 = 0 then
        [(NORTH_EAST, ⟨0, -1⟩), (SOUTH_EAST, ⟨0, 1⟩), (NORTH_WEST, ⟨-1, -1⟩),
         (SOUTH_WEST, ⟨-1, 1⟩), (EAST, ⟨1, 0⟩), (WEST, ⟨-1, 0⟩)]
      else
        [(NORTH_EAST, ⟨1, -1⟩), (SOUTH_EAST, ⟨1, 1⟩), (NORTH_WEST, ⟨0, -1⟩),
         (SOUTH_WEST, ⟨0, 1⟩), (EAST, ⟨1, 0⟩), (WEST, ⟨-1, 0⟩)]
  | .triangle, c =>
      if triangleIsEven c then
        [(NORTH_WEST, ⟨-1, 1⟩), (NORTH_EAST, ⟨1, 1⟩), (SOUTH, ⟨1, -1⟩)]
      else
        [(NORTH, ⟨-1, 1⟩), (SOUTH_EAST, ⟨1, -1⟩), (SOUTH_WEST, ⟨-1, -1⟩)]

/-- Set `TriangleGrid._even_dirs` (a Python set; listed in source order). -/
def triangleEvenDirs : List CardinalDirection :=
  [NORTH_EAST, NORTH_WEST, SOUTH]

/-- Set `TriangleGrid._odd_dirs` (a Python set; listed in source order). -/
def triangleOddDirs : List CardinalDirection :=
  [NORTH, SOUTH_WEST, SOUTH_EAST]

/-- Method `Grid.get_direction` (the base-class implementation used by the square
and hex grids): sort the valid directions by enum value, find the index of
the old direction (`list.index` raises `ValueError` when absent) and step
`turn - 1` places round, wrapping modulo the direction count. -/
def gridGetDirection (t : Topology) (coord : GridCoord) (oldDirection : CardinalDirection)
    (turn : Int) : Except Err CardinalDirection :=
  let turn1 := turn - 1
  let dvs := directionVectors t coord
  let directions := sortDirs (dvs.map Prod.fst)
  match listIndex directions oldDirection with
  | none => .error .valueError
  | some oldIndex =>
      .ok (directions.getD (((oldIndex : Int) + turn1) % (dvs.length : Int)).toNat NORTH)

/-- Method `TriangleGrid.get_direction`: the new direction comes from the
other direction set (of opposite parity); when the old direction is in the odd set the turn
is first decremented. An old direction in neither set raises
`InvalidDirection`. -/
def triangleGetDirection (coord : GridCoord) (oldDirection : CardinalDirection)
    (turn : Int) : Except Err CardinalDirection :=
  if oldDirection ∈ triangleEvenDirs then
    let oldIndex := (listIndex (sortDirs triangleEvenDirs) oldDirection).getD 0
    .ok ((sortDirs triangleOddDirs).getD (((oldIndex : Int) + turn) % 3).toNat NORTH)
  else if oldDirection ∈ triangleOddDirs then
    let oldIndex := (listIndex (sortDirs triangleOddDirs) oldDirection).getD 0
    .ok ((sortDirs triangleEvenDirs).getD (((oldIndex : Int) + (turn - 1)) % 3).toNat NORTH)
  else
    .error (.invalidDirection oldDirection coord)

/-- Dynamic dispatch for `get_direction`: `TriangleGrid` overrides the
base-class implementation. -/
def getDirection : Topology → GridCoord → CardinalDirection → Int → Except Err CardinalDirection
  | .square, c, d, turn => gridGetDirection .square c d turn
  | .hex, c, d, turn => gridGetDirection .hex c d turn
  | .triangle, c, d, turn => triangleGetDirection c d turn

/-- Method `Grid.get_neighbour` (base class): check the coordinate, then
the direction, then add the vector of that direction. -/
def gridGetNeighbour (t : Topology) (coord : GridCoord) (direction : CardinalDirection) :
    Except Err GridCoord :=
  if validateCoord t coord = false then .error (.invalidCoord coord)
  else
    match dictGet (directionVectors t coord) direction with
    | none => .error (.invalidDirection direction coord)
    | some v => .ok (coord.add v)

/-- Method `TriangleGrid.get_neighbour`: checks the coordinate first (deliberately,
per the source comment, to avoid misleading direction errors for invalid
coordinates), then the direction against the vectors and against the
direction set of the parity, then delegates to the base implementation. -/
def triangleGetNeighbour (coord : GridCoord) (direction : CardinalDirection) :
    Except Err GridCoord :=
  if validateCoord .triangle coord = false then .error (.invalidCoord coord)
  else if (dictGet (directionVectors .triangle coord) direction).isNone then
    .error (.invalidDirection direction coord)
  else if direction ∉ (if triangleIsEven coord then triangleEvenDirs else triangleOddDirs) then
    .error (.invalidDirection direction coord)
  else gridGetNeighbour .triangle coord direction

/-- Dynamic dispatch for `get_neighbour`: `TriangleGrid` overrides it. -/
def getNeighbour : Topology → GridCoord → CardinalDirection → Except Err GridCoord
  | .square, c, d => gridGetNeighbour .square c d
  | .hex, c, d => gridGetNeighbour .hex c d
  | .triangle, c, d => triangleGetNeighbour c d

/-- The mutable state of a `Grid` instance (ant/grid.py `Grid.__init__`):
default colour, the `store_default` flag, the sparse cell dict, and the
fast bounding-box fields.  Cell colours (`CellColour`) are plain ints. -/
structure GridState : Type where
  topology : Topology
  default_colour : Int
  store_default : Bool
  grid : List (GridCoord × Int)
  has_data : Bool
  min_x : Int
  min_y : Int
  max_x : Int
  max_y : Int
deriving DecidableEq, Repr

/-- A fresh grid, as built by `Grid.__init__(default_colour, store_default)`. -/
def GridState.init (t : Topology) (default_colour : Int) (store_default : Bool) : GridState :=
  { topology := t
    default_colour := default_colour
    store_default := store_default
    grid := []
    has_data := false
    min_x := 0
    min_y := 0
    max_x := 0
    max_y := 0 }

/-- Method `Grid.__getitem__`: coordinate check, then stored colour or default. -/
def getItem (g : GridState) (coord : GridCoord) : Except Err Int :=
  if validateCoord g.topology coord = false then .error (.invalidCoord coord)
  else .ok ((dictGet g.grid coord).getD g.default_colour)

/-- The bounding-box update block of `Grid.__setitem__`: expand the box
when data exists, else initialise it to the written coordinate. -/
def bboxUpdate (g : GridState) (coord : GridCoord) : GridState :=
  if g.has_data then
    { g with
        min_x := min g.min_x coord.x
        max_x := max g.max_x coord.x
        min_y := min g.min_y coord.y
        max_y := max g.max_y coord.y }
  else
    { g with
        has_data := true
        min_x := coord.x
        max_x := coord.x
        min_y := coord.y
        max_y := coord.y }

/-- Method `Grid.__setitem__`: coordinate check, then the O(1) bounding-box update,
then store / remove.  Removal uses `dict.pop(coord)` with no default, which
raises `KeyError` when nothing is stored at `coord`; the bounding box has
already been updated by then, so the returned state carries that mutation. -/
def setItem (g : GridState) (coord : GridCoord) (colour : Int) : GridState × Option Err :=
  if validateCoord g.topology coord = false then (g, some (.invalidCoord coord))
  else if colour = (bboxUpdate g coord).default_colour ∧ ¬ (bboxUpdate g coord).store_default then
    match dictPop (bboxUpdate g coord).grid coord with
    | none => (bboxUpdate g coord, some .keyError)
    | some m => ({ bboxUpdate g coord with grid := m }, none)
  else ({ bboxUpdate g coord with grid := dictInsert (bboxUpdate g coord).grid coord colour },
    none)

/-- Type `Rule` from ant/types.py. Colours are plain ints. -/
structure Rule : Type where
  ant_colour : Int
  cell_colour : Int
  new_ant_colour : Int
  new_cell_colour : Int
  turn : Int
deriving DecidableEq, Repr

/-- Type `AntState` from ant/grid.py. -/
structure AntState : Type where
  position : GridCoord
  direction : CardinalDirection
  colour : Int
deriving DecidableEq, Repr

/-- The mutable fields of an `Ant` (ant/grid.py): current state, previous
position, and the private rule dict keyed by `(ant_colour, cell_colour)`. -/
structure Ant : Type where
  state : AntState
  prev_position : GridCoord
  rules : List ((Int × Int) × Rule)
deriving DecidableEq, Repr

/-- The rule-dict construction in `Ant.__init__`: later rules with the same
`(ant_colour, cell_colour)` key overwrite earlier ones. -/
def buildRules (rules : List Rule) : List ((Int × Int) × Rule) :=
  rules.foldl (fun m r => dictInsert m (r.ant_colour, r.cell_colour) r) []

/-- Method `Ant.__init__` for an ant with no prior steps. -/
def Ant.init (initial : AntState) (rules : List Rule) : Ant :=
  { state := initial, prev_position := initial.position, rules := buildRules rules }

/-- Method `Ant.step`: read the current cell, look up the rule (dict indexing, a
`KeyError` when absent), repaint the current cell, rotate, move.  Each
fallible operation that raises propagates the error together with the state
as mutated so far (Python leaves earlier in-place mutations applied). -/
def step (a : Ant) (g : GridState) : Ant × GridState × Option Err :=
  match getItem g a.state.position with
  | .error e => (a, g, some e)
  | .ok cellColour =>
    match dictGet a.rules (a.state.colour, cellColour) with
    | none => (a, g, some .keyError)
    | some rule =>
      match setItem g a.state.position rule.new_cell_colour with
      | (g1, some e) => (a, g1, some e)
      | (g1, none) =>
        match getDirection g1.topology a.state.position a.state.direction rule.turn with
        | .error e => (a, g1, some e)
        | .ok newDirection =>
          match getNeighbour g1.topology a.state.position newDirection with
          | .error e => (a, g1, some e)
          | .ok newPosition =>
            ({ state := { position := newPosition, direction := newDirection,
                          colour := rule.new_ant_colour }
               prev_position := a.state.position
               rules := a.rules }, g1, none)

/-- Repeated `step` calls, stopping at the first raised error. -/
def steps : Nat → Ant → GridState → Ant × GridState × Option Err
  | 0, a, g => (a, g, none)
  | n + 1, a, g =>
    match step a g with
    | (a1, g1, none) => steps n a1 g1
    | (a1, g1, some e) => (a1, g1, some e)

/-- A sequence of `set` calls from a driver that catches any exception of
each call and carries on: each call leaves the state as mutated at the
point of its completion or raise. -/
def applySets (g : GridState) : List (GridCoord × Int) → GridState
  | [] => g
  | (c, colour) :: rest => applySets (setItem g c colour).1 rest

/-- Method `lr_directions` of each subclass: token tables of the LR-string
mini-language (tokens as character lists, values are turn amounts). -/
def lrDirections : Topology → List (List Char × Int)
  | .square =>
      [(['F'], 1), (['N'], 1), (['R'], 2), (['B'], 3), (['U'], 3), (['L'], 4)]
  | .hex =>
      [(['F'], 1), (['N'], 1), (['R'], 2), (['R', '1'], 2), (['I'], 3), (['R', '2'], 3),
       (['B'], 4), (['U'], 4), (['E'], 5), (['L', '2'], 5), (['L'], 6), (['L', '1'], 6)]
  | .triangle =>
      [(['R'], 1), (['B'], 2), (['L'], 3)]

/-- Whether `t` starts the character list `s` (Python `str.startswith`). -/
def leadsList : List Char → List Char → Bool
  | [], _ => true
  | _ :: _, [] => false
  | a :: as, b :: bs => a = b && leadsList as bs

/-- Python `sorted(tokens, key=len, reverse=True)`: a stable sort putting
longer tokens first (each token is placed after all earlier tokens of
greater or equal length). -/
def insertTok (t : List Char) : List (List Char) → List (List Char)
  | [] => [t]
  | u :: rest =>
      if u.length ≥ t.length then u :: insertTok t rest else t :: u :: rest

/-- The greedy token order used by `Grid._tokenise_lr_string`. -/
def sortToks (l : List (List Char)) : List (List Char) :=
  l.foldl (fun acc t => insertTok t acc) []

/-- One round of `Grid._tokenise_lr_string`: the first token in the sorted
token list that starts the remaining string (the `for`/`else` loop; `none`
models the `ValueError` for an unrecognised remainder). -/
def findTok (tokens : List (List Char)) (s : List Char) : Option (List Char) :=
  tokens.find? (fun t => leadsList t s)

/-- Method `Grid._tokenise_lr_string`, fuelled by the string length: every real
token table has only non-empty tokens, so each round consumes at least one
character and the fuel `s.length` never runs out on a tokenisable string. -/
def tokeniseAux (tokens : List (List Char)) : Nat → List Char → Except Err (List (List Char))
  | _, [] => .ok []
  | 0, _ :: _ => .error .valueError
  | fuel + 1, c :: rest =>
    match findTok tokens (c :: rest) with
    | none => .error .valueError
    | some t =>
      match tokeniseAux tokens fuel ((c :: rest).drop t.length) with
      | .error e => .error e
      | .ok ts => .ok (t :: ts)

/-- Method `Grid._tokenise_lr_string` for the token table of a topology. -/
def tokeniseLrString (t : Topology) (s : List Char) : Except Err (List (List Char)) :=
  tokeniseAux (sortToks ((lrDirections t).map Prod.fst)) s.length s

/-- The rule-building loop of `Grid.rules_from_lr_string`: the i-th token
(0-indexed, starting at `i`) yields
`Rule(0, i, 0, (i+1) % n, dirs[token])`, where `n` is the token count;
a token missing from the table raises `ValueError`. -/
def rulesFromTokensAux (dirs : List (List Char × Int)) (n : Nat) :
    Nat → List (List Char) → Except Err (List Rule)
  | _, [] => .ok []
  | i, tok :: rest =>
    match dictGet dirs tok with
    | none => .error .valueError
    | some turn =>
      match rulesFromTokensAux dirs n (i + 1) rest with
      | .error e => .error e
      | .ok rules =>
          .ok ({ ant_colour := 0, cell_colour := (i : Int), new_ant_colour := 0,
                 new_cell_colour := ((i : Int) + 1) % (n : Int), turn := turn } :: rules)

/-- The body of `Grid.rules_from_lr_string` applied to a token list. -/
def rulesFromTokens (dirs : List (List Char × Int)) (tokens : List (List Char)) :
    Except Err (List Rule) :=
  rulesFromTokensAux dirs tokens.length 0 tokens

/-- Method `Grid.rules_from_lr_string`: tokenise, then build one rule per token. -/
def rulesFromLrString (t : Topology) (s : List Char) : Except Err (List Rule) :=
  match tokeniseLrString t s with
  | .error e => .error e
  | .ok tokens => rulesFromTokens (lrDirections t) tokens

/-- The direction opposite to a given one (for the round-trip claim of the spec). -/
def opposite : CardinalDirection → CardinalDirection
  | NORTH => SOUTH
  | SOUTH => NORTH
  | EAST => WEST
  | WEST => EAST
  | NORTH_EAST => SOUTH_WEST
  | SOUTH_WEST => NORTH_EAST
  | SOUTH_EAST => NORTH_WEST
  | NORTH_WEST => SOUTH_EAST

/-- The fast-bounding-box containment predicate of the spec:
`min_x ≤ x ≤ max_x` and `min_y ≤ y ≤ max_y`. -/
def inBbox (g : GridState) (c : GridCoord) : Prop :=
  g.min_x ≤ c.x ∧ c.x ≤ g.max_x ∧ g.min_y ≤ c.y ∧ c.y ≤ g.max_y

/-- A fresh `SquareGrid()` with the default colour 0. -/
def squareGrid0 : GridState := GridState.init .square 0 false

/-- The rules compiled from the LR-string `"LR"` on the square grid. -/
def lrRules : List Rule := (rulesFromLrString .square ['L', 'R']).toOption.getD []

/-- An ant at (0,0) facing North with colour 0 and the `"LR"` rules. -/
def lrAnt : Ant := Ant.init ⟨⟨0, 0⟩, NORTH, 0⟩ lrRules

/-- An ant at (0,0) facing North-East (a direction invalid on the square
grid) with a single rule repainting cell colour 0 to 1. -/
def diagAnt : Ant := Ant.init ⟨⟨0, 0⟩, NORTH_EAST, 0⟩ [⟨0, 0, 0, 1, 1⟩]

/-- An ant at (0,0) facing North with an empty rule table. -/
def noRuleAnt : Ant := Ant.init ⟨⟨0, 0⟩, NORTH, 0⟩ []

/-- C2: `Grid.__setitem__` on a fresh square grid, writing the default
colour 0 at the valid coordinate (0,0) where nothing is stored: the claim
says the write succeeds and stores nothing, but `dict.pop(coord)` without a
default raises `KeyError`; the bounding box has already been initialised by
then, so the failed write even leaves `has_data` set. -/
theorem set_default_unstored_keyerror :
    validateCoord squareGrid0.topology ⟨0, 0⟩ = true ∧
    dictGet squareGrid0.grid ⟨0, 0⟩ = none ∧
    (setItem squareGrid0 ⟨0, 0⟩ 0).2 = some Err.keyError ∧
    (setItem squareGrid0 ⟨0, 0⟩ 0).1.has_data = true :=
  ⟨rfl, rfl, rfl, rfl⟩

/-- C3 counterexample: square grid, default colour 0, ant at (0,0) facing
North with the `"LR"` rules.  After 2 steps the ant faces South, not the
initial North: both visited cells held colour 0, so the Left rule fired
twice (North → West → South). -/
theorem lr_two_steps_direction_counterexample :
    (steps 2 lrAnt squareGrid0).1.state.direction = SOUTH ∧
    SOUTH ≠ NORTH :=
  ⟨rfl, by decide⟩

/-- C3 (amended): after 2 steps, cell (0,0) has colour 1; the second
visited cell is (-1,0) (reached facing West after the first Left turn),
which still held the default colour, so the first rule fired again and
repainted it to colour 1; the ant turned Left twice, ending at (-1,1)
facing South. -/
theorem lr_two_steps_result :
    (steps 2 lrAnt squareGrid0).2.2 = none ∧
    getItem (steps 2 lrAnt squareGrid0).2.1 ⟨0, 0⟩ = .ok 1 ∧
    (steps 1 lrAnt squareGrid0).1.state.position = ⟨-1, 0⟩ ∧
    (steps 1 lrAnt squareGrid0).1.state.direction = WEST ∧
    getItem (steps 2 lrAnt squareGrid0).2.1 ⟨-1, 0⟩ = .ok 1 ∧
    (steps 2 lrAnt squareGrid0).1.state.direction = SOUTH ∧
    (steps 2 lrAnt squareGrid0).1.state.position = ⟨-1, 1⟩ :=
  ⟨rfl, rfl, rfl, rfl, rfl, rfl, rfl⟩

/-- C4 counterexample: on the triangular grid, coordinate (0,1) is invalid
and direction East is invalid there (it is in neither direction set), yet
`get_neighbour` raises `InvalidCoord`, not `InvalidDirection`: the
coordinate check comes first. -/
theorem neighbour_both_invalid_counterexample :
    validateCoord .triangle ⟨0, 1⟩ = false ∧
    dictGet (directionVectors .triangle ⟨0, 1⟩) EAST = none ∧
    EAST ∉ triangleEvenDirs ∧
    EAST ∉ triangleOddDirs ∧
    getNeighbour .triangle ⟨0, 1⟩ EAST = .error (.invalidCoord ⟨0, 1⟩) ∧
    Err.invalidCoord ⟨0, 1⟩ ≠ Err.invalidDirection EAST ⟨0, 1⟩ :=
  ⟨rfl, rfl, by decide, by decide, rfl, by decide⟩

/-- C4 (amended): on the triangular grid the coordinate-validity check
precedes every direction check (deliberately, per the source comment), so
whenever the coordinate is invalid — whether or not the direction is also
invalid — `get_neighbour` fails with `InvalidCoord`. -/
theorem neighbour_invalid_coord_first (c : GridCoord) (d : CardinalDirection)
    (hc : validateCoord .triangle c = false) :
    getNeighbour .triangle c d = .error (.invalidCoord c) := by
  simp [getNeighbour, triangleGetNeighbour, hc]

/-- C4 witness: the amended theorem at the invalid coordinate (2,1) with
direction North. -/
theorem neighbour_invalid_coord_first_witness :
    getNeighbour .triangle ⟨2, 1⟩ NORTH = .error (.invalidCoord ⟨2, 1⟩) :=
  neighbour_invalid_coord_first ⟨2, 1⟩ NORTH (by decide)

/-- C5 counterexample: North-East is not a valid square-grid direction, yet
the inherited `get_direction` of `SquareGrid` fails with the `ValueError` of
`list.index`, not with `InvalidDirection`. -/
theorem rotate_unknown_direction_counterexample :
    NORTH_EAST ∉ (directionVectors .square ⟨0, 0⟩).map Prod.fst ∧
    getDirection .square ⟨0, 0⟩ NORTH_EAST 1 = .error Err.valueError ∧
    Err.valueError ≠ Err.invalidDirection NORTH_EAST ⟨0, 0⟩ :=
  ⟨by decide, rfl, by decide⟩

/-- C5 (amended): only `TriangleGrid.get_direction` raises
`InvalidDirection` for a direction outside both of its direction sets; the
square and hexagonal grids use the base-class `get_direction`, whose
`list.index` call raises a plain `ValueError` for a direction outside the
direction set of the topology. -/
theorem rotate_unknown_direction_error (c : GridCoord) (d : CardinalDirection) (turn : Int) :
    (d ∉ triangleEvenDirs → d ∉ triangleOddDirs →
      getDirection .triangle c d turn = .error (.invalidDirection d c)) ∧
    (d ∉ (directionVectors .square c).map Prod.fst →
      getDirection .square c d turn = .error Err.valueError) ∧
    (d ∉ (directionVectors .hex c).map Prod.fst →
      getDirection .hex c d turn = .error Err.valueError) := by
  refine ⟨?_, ?_, ?_⟩
  · intro h1 h2
    simp [getDirection, triangleGetDirection, h1, h2]
  · intro hd
    cases d <;> simp [directionVectors] at hd <;> rfl
  · intro hd
    by_cases hy : c.y % 2 = 0 <;>
      cases d <;>
      simp [directionVectors, hy] at hd <;>
      simp [getDirection, gridGetDirection, directionVectors, hy, sortDirs, insertSorted,
        CardinalDirection.value, listIndex]

/-- C5 witness: the amended theorem at concrete inputs for each topology. -/
theorem rotate_unknown_direction_error_witness :
    getDirection .triangle ⟨3, 1⟩ EAST 2 = .error (.invalidDirection EAST ⟨3, 1⟩) ∧
    getDirection .square ⟨5, 7⟩ SOUTH_WEST 3 = .error Err.valueError ∧
    getDirection .hex ⟨4, 2⟩ NORTH 1 = .error Err.valueError :=
  ⟨(rotate_unknown_direction_error ⟨3, 1⟩ EAST 2).1 (by decide) (by decide),
   (rotate_unknown_direction_error ⟨5, 7⟩ SOUTH_WEST 3).2.1 (by decide),
   (rotate_unknown_direction_error ⟨4, 2⟩ NORTH 1).2.2 (by decide)⟩

/-- Any index of the form `(k % 3).toNat` into the sorted odd direction
list lands on one of the three odd directions. -/
theorem sortDirs_odd_getD_mem (k : Int) :
    (sortDirs triangleOddDirs).getD (k % 3).toNat NORTH ∈ triangleOddDirs := by
  have h : (k % 3).toNat = 0 ∨ (k % 3).toNat = 1 ∨ (k % 3).toNat = 2 := by omega
  rcases h with h | h | h <;> rw [h] <;> decide

/-- Any index of the form `(k % 3).toNat` into the sorted even direction
list lands on one of the three even directions. -/
theorem sortDirs_even_getD_mem (k : Int) :
    (sortDirs triangleEvenDirs).getD (k % 3).toNat NORTH ∈ triangleEvenDirs := by
  have h : (k % 3).toNat = 0 ∨ (k % 3).toNat = 1 ∨ (k % 3).toNat = 2 := by omega
  rcases h with h | h | h <;> rw [h] <;> decide

/-- C6: `TriangleGrid.get_direction` always answers from the opposite
direction set of opposite parity, and facing North (a direction of the "odd" set)
turn=1 yields North-East, turn=2 yields South, turn=3 yields North-West. -/
theorem triangle_rotation_opposite_parity (c : GridCoord) (d : CardinalDirection) (turn : Int) :
    (d ∈ triangleEvenDirs →
      ∃ r, getDirection .triangle c d turn = .ok r ∧ r ∈ triangleOddDirs) ∧
    (d ∈ triangleOddDirs →
      ∃ r, getDirection .triangle c d turn = .ok r ∧ r ∈ triangleEvenDirs) ∧
    getDirection .triangle c NORTH 1 = .ok NORTH_EAST ∧
    getDirection .triangle c NORTH 2 = .ok SOUTH ∧
    getDirection .triangle c NORTH 3 = .ok NORTH_WEST := by
  refine ⟨?_, ?_, rfl, rfl, rfl⟩
  · intro h
    simp only [triangleEvenDirs, List.mem_cons, List.not_mem_nil, or_false] at h
    rcases h with rfl | rfl | rfl <;> exact ⟨_, rfl, sortDirs_odd_getD_mem _⟩
  · intro h
    simp only [triangleOddDirs, List.mem_cons, List.not_mem_nil, or_false] at h
    rcases h with rfl | rfl | rfl <;> exact ⟨_, rfl, sortDirs_even_getD_mem _⟩

/-- C6 witness: the theorem at the odd coordinate (1,1), facing North. -/
theorem triangle_rotation_opposite_parity_witness :
    NORTH ∈ triangleOddDirs ∧
    (∃ r, getDirection .triangle ⟨1, 1⟩ NORTH 5 = .ok r ∧ r ∈ triangleEvenDirs) ∧
    getDirection .triangle ⟨1, 1⟩ NORTH 1 = .ok NORTH_EAST :=
  ⟨by decide, (triangle_rotation_opposite_parity ⟨1, 1⟩ NORTH 5).2.1 (by decide),
   (triangle_rotation_opposite_parity ⟨1, 1⟩ NORTH 1).2.2.1⟩

/-- The rule-building loop of `rules_from_lr_string`, specified: starting
the enumeration at `i`, the j-th produced rule keeps ant colour 0, reads
cell colour `i+j`, writes cell colour `(i+j+1) mod n` and turns by the
value in the token table for the j-th token. -/
theorem rulesFromTokensAux_ok (dirs : List (List Char × Int)) (n : Nat) :
    ∀ (ts : List (List Char)) (i : Nat) (rules : List Rule),
      rulesFromTokensAux dirs n i ts = .ok rules →
      rules.length = ts.length ∧
      ∀ (j : Nat) (hj : j < rules.length) (hj' : j < ts.length),
        rules.get ⟨j, hj⟩ =
          { ant_colour := 0, cell_colour := ((i + j : Nat) : Int), new_ant_colour := 0,
            new_cell_colour := (((i + j : Nat) : Int) + 1) % (n : Int),
            turn := (dictGet dirs (ts.get ⟨j, hj'⟩)).getD 0 } := by
  intro ts
  induction ts with
  | nil =>
      intro i rules h
      simp only [rulesFromTokensAux, Except.ok.injEq] at h
      subst h
      refine ⟨rfl, ?_⟩
      intro j hj _
      simp at hj
  | cons tok rest ih =>
      intro i rules h
      simp only [rulesFromTokensAux] at h
      cases hdg : dictGet dirs tok with
      | none => rw [hdg] at h; simp at h
      | some turn =>
          rw [hdg] at h
          cases haux : rulesFromTokensAux dirs n (i + 1) rest with
          | error e => rw [haux] at h; simp at h
          | ok rules2 =>
              rw [haux] at h
              simp only [Except.ok.injEq] at h
              subst h
              obtain ⟨hlen, hspec⟩ := ih (i + 1) rules2 haux
              refine ⟨by simp [hlen], ?_⟩
              intro j hj hj'
              cases j with
              | zero => simp [List.get, hdg]
              | succ j2 =>
                  have hj3 : j2 < rules2.length := by
                    simpa using Nat.lt_of_succ_lt_succ hj
                  have hj4 : j2 < rest.length := by
                    simpa using Nat.lt_of_succ_lt_succ hj'
                  have hs := hspec j2 hj3 hj4
                  have harith : i + 1 + j2 = i + (j2 + 1) := by omega
                  rw [harith] at hs
                  exact hs

/-- C7: compiling `"LR"` on the square grid yields exactly the two rules
(cell 0 → turn 4, repaint 1) and (cell 1 → turn 2, repaint 0), both with
ant colour 0; and in general the j-th token of any successfully compiled
LR-string yields `Rule(0, j, 0, (j+1) mod tokenCount, tokenTable[token])`. -/
theorem lr_compiler_rules :
    rulesFromLrString .square ['L', 'R'] =
      .ok [⟨0, 0, 0, 1, 4⟩, ⟨0, 1, 0, 0, 2⟩] ∧
    ∀ (t : Topology) (s : List Char) (rules : List Rule),
      rulesFromLrString t s = .ok rules →
      ∃ tokens, tokeniseLrString t s = .ok tokens ∧
        rules.length = tokens.length ∧
        ∀ (j : Nat) (hj : j < rules.length) (hj' : j < tokens.length),
          rules.get ⟨j, hj⟩ =
            { ant_colour := 0, cell_colour := (j : Int), new_ant_colour := 0,
              new_cell_colour := ((j : Int) + 1) % (tokens.length : Int),
              turn := (dictGet (lrDirections t) (tokens.get ⟨j, hj'⟩)).getD 0 } := by
  constructor
  · rfl
  · intro t s rules h
    unfold rulesFromLrString at h
    cases htok : tokeniseLrString t s with
    | error e => rw [htok] at h; simp at h
    | ok tokens =>
        rw [htok] at h
        refine ⟨tokens, rfl, ?_⟩
        obtain ⟨hlen, hspec⟩ :=
          rulesFromTokensAux_ok (lrDirections t) tokens.length tokens 0 rules h
        refine ⟨hlen, ?_⟩
        intro j hj hj'
        simpa using hspec j hj hj'

/-- C7 witness: the general part of the theorem at `"LR"` on the square
grid, with the compiled rule list made explicit. -/
theorem lr_compiler_rules_witness :
    ∃ tokens, tokeniseLrString .square ['L', 'R'] = .ok tokens ∧
      ([⟨0, 0, 0, 1, 4⟩, ⟨0, 1, 0, 0, 2⟩] : List Rule).length = tokens.length ∧
      ∀ (j : Nat) (hj : j < ([⟨0, 0, 0, 1, 4⟩, ⟨0, 1, 0, 0, 2⟩] : List Rule).length)
        (hj' : j < tokens.length),
        ([⟨0, 0, 0, 1, 4⟩, ⟨0, 1, 0, 0, 2⟩] : List Rule).get ⟨j, hj⟩ =
          { ant_colour := 0, cell_colour := (j : Int), new_ant_colour := 0,
            new_cell_colour := ((j : Int) + 1) % (tokens.length : Int),
            turn := (dictGet (lrDirections .square) (tokens.get ⟨j, hj'⟩)).getD 0 } :=
  lr_compiler_rules.2 .square ['L', 'R'] [⟨0, 0, 0, 1, 4⟩, ⟨0, 1, 0, 0, 2⟩] rfl

/-- C1 counterexample: an ant on a square grid facing North-East (invalid
for the square topology) with a rule repainting cell colour 0 to 1.  The
`step` call fails (the `list.index` in the rotation raises `ValueError`), yet
the repaint of cell (0,0) — applied before the rotation — remains
observable afterwards, so the step is not atomic. -/
theorem step_not_atomic_counterexample :
    (step diagAnt squareGrid0).2.2 = some Err.valueError ∧
    squareGrid0.grid = [] ∧
    (step diagAnt squareGrid0).2.1.grid = [(⟨0, 0⟩, 1)] ∧
    getItem squareGrid0 ⟨0, 0⟩ = .ok 0 ∧
    getItem (step diagAnt squareGrid0).2.1 ⟨0, 0⟩ = .ok 1 :=
  ⟨rfl, rfl, rfl, rfl, rfl⟩

/-- C1 (amended): whenever `Ant.step` fails, the position, direction,
colour and previous position of the ant are unchanged; and failures of the initial
cell read or of the rule lookup — which happen before the repaint — leave
the grid unchanged as well.  (Failures during rotation or neighbour
computation happen after the current cell has been repainted and the
bounding box updated, so those grid mutations remain observable.) -/
theorem step_error_effects (a : Ant) (g : GridState) (a1 : Ant) (g1 : GridState) (e : Err)
    (h : step a g = (a1, g1, some e)) :
    a1 = a ∧
    (∀ e2, getItem g a.state.position = .error e2 → g1 = g) ∧
    (∀ cc, getItem g a.state.position = .ok cc →
      dictGet a.rules (a.state.colour, cc) = none → g1 = g) := by
  unfold step at h
  split at h
  next e2 hgi =>
    simp only [Prod.mk.injEq] at h
    refine ⟨h.1.symm, fun _ _ => h.2.1.symm, ?_⟩
    intro cc hcc
    rw [hgi] at hcc
    cases hcc
  next cc hgi =>
    have hside1 : ∀ e2, getItem g a.state.position = .error e2 → g1 = g := by
      intro e2 he2
      rw [hgi] at he2
      cases he2
    split at h
    next hr =>
      simp only [Prod.mk.injEq] at h
      exact ⟨h.1.symm, hside1, fun _ _ _ => h.2.1.symm⟩
    next rule hr =>
      have hside2 : ∀ cc2, getItem g a.state.position = .ok cc2 →
          dictGet a.rules (a.state.colour, cc2) = none → g1 = g := by
        intro cc2 hcc2 hnone
        rw [hgi] at hcc2
        injection hcc2 with hcc3
        rw [← hcc3] at hnone
        rw [hr] at hnone
        cases hnone
      split at h
      next g2 e3 hsi =>
        simp only [Prod.mk.injEq] at h
        exact ⟨h.1.symm, hside1, hside2⟩
      next g2 hsi =>
        split at h
        next e3 hgd =>
          simp only [Prod.mk.injEq] at h
          exact ⟨h.1.symm, hside1, hside2⟩
        next nd hgd =>
          split at h
          next e3 hgn =>
            simp only [Prod.mk.injEq] at h
            exact ⟨h.1.symm, hside1, hside2⟩
          next np hgn =>
            simp only [Prod.mk.injEq] at h
            cases h.2.2

/-- C1 witness: the amended theorem at an ant whose rule table is empty, so
the rule lookup raises `KeyError` before any mutation. -/
theorem step_error_effects_witness :
    noRuleAnt = noRuleAnt ∧
    (∀ e2, getItem squareGrid0 noRuleAnt.state.position = .error e2 →
      squareGrid0 = squareGrid0) ∧
    (∀ cc, getItem squareGrid0 noRuleAnt.state.position = .ok cc →
      dictGet noRuleAnt.rules (noRuleAnt.state.colour, cc) = none →
      squareGrid0 = squareGrid0) :=
  step_error_effects noRuleAnt squareGrid0 noRuleAnt squareGrid0 Err.keyError rfl

/-- The hex direction vectors on an even row. -/
theorem hex_vectors_even (c : GridCoord) (h : c.y % 2 = 0) :
    directionVectors .hex c =
      [(NORTH_EAST, ⟨0, -1⟩), (SOUTH_EAST, ⟨0, 1⟩), (NORTH_WEST, ⟨-1, -1⟩),
       (SOUTH_WEST, ⟨-1, 1⟩), (EAST, ⟨1, 0⟩), (WEST, ⟨-1, 0⟩)] := by
  simp [directionVectors, h]

/-- The hex direction vectors on an odd row. -/
theorem hex_vectors_odd (c : GridCoord) (h : c.y % 2 = 1) :
    directionVectors .hex c =
      [(NORTH_EAST, ⟨1, -1⟩), (SOUTH_EAST, ⟨1, 1⟩), (NORTH_WEST, ⟨0, -1⟩),
       (SOUTH_WEST, ⟨0, 1⟩), (EAST, ⟨1, 0⟩), (WEST, ⟨-1, 0⟩)] := by
  have h2 : ¬(c.y % 2 = 0) := by omega
  simp [directionVectors, h2]

/-- C8: on the square and hexagonal topologies, following a valid direction
and then its opposite returns to the starting coordinate, on every
coordinate (both hex row parities). -/
theorem square_hex_neighbour_roundtrip (t : Topology) (c : GridCoord) (d : CardinalDirection)
    (ht : t = .square ∨ t = .hex)
    (hd : d ∈ (directionVectors t c).map Prod.fst) :
    ∃ m, getNeighbour t c d = .ok m ∧ getNeighbour t m (opposite d) = .ok c := by
  obtain ⟨x, y⟩ := c
  rcases ht with rfl | rfl
  · cases d with
    | NORTH =>
        refine ⟨⟨x, y + -1⟩, ?_, ?_⟩ <;>
          simp [getNeighbour, gridGetNeighbour, validateCoord, directionVectors, dictGet,
            GridCoord.add, opposite, GridCoord.mk.injEq]
    | EAST =>
        refine ⟨⟨x + 1, y⟩, ?_, ?_⟩ <;>
          simp [getNeighbour, gridGetNeighbour, validateCoord, directionVectors, dictGet,
            GridCoord.add, opposite, GridCoord.mk.injEq]
    | SOUTH =>
        refine ⟨⟨x, y + 1⟩, ?_, ?_⟩ <;>
          simp [getNeighbour, gridGetNeighbour, validateCoord, directionVectors, dictGet,
            GridCoord.add, opposite, GridCoord.mk.injEq]
    | WEST =>
        refine ⟨⟨x + -1, y⟩, ?_, ?_⟩ <;>
          simp [getNeighbour, gridGetNeighbour, validateCoord, directionVectors, dictGet,
            GridCoord.add, opposite, GridCoord.mk.injEq]
    | NORTH_EAST => simp [directionVectors] at hd
    | SOUTH_EAST => simp [directionVectors] at hd
    | SOUTH_WEST => simp [directionVectors] at hd
    | NORTH_WEST => simp [directionVectors] at hd
  · by_cases hy : y % 2 = 0
    · cases d with
      | NORTH => simp [directionVectors, hy] at hd
      | SOUTH => simp [directionVectors, hy] at hd
      | NORTH_EAST =>
          have h2 : (⟨x, y + -1⟩ : GridCoord).y % 2 = 1 := by show (y + -1) % 2 = 1; omega
          refine ⟨⟨x, y + -1⟩, ?_, ?_⟩
          · simp [getNeighbour, gridGetNeighbour, validateCoord, hex_vectors_even ⟨x, y⟩ hy,
              dictGet, GridCoord.add, GridCoord.mk.injEq]
          · simp [getNeighbour, gridGetNeighbour, validateCoord, hex_vectors_odd ⟨x, y + -1⟩ h2,
              dictGet, GridCoord.add, opposite, GridCoord.mk.injEq]
      | SOUTH_EAST =>
          have h2 : (⟨x, y + 1⟩ : GridCoord).y % 2 = 1 := by show (y + 1) % 2 = 1; omega
          refine ⟨⟨x, y + 1⟩, ?_, ?_⟩
          · simp [getNeighbour, gridGetNeighbour, validateCoord, hex_vectors_even ⟨x, y⟩ hy,
              dictGet, GridCoord.add, GridCoord.mk.injEq]
          · simp [getNeighbour, gridGetNeighbour, validateCoord, hex_vectors_odd ⟨x, y + 1⟩ h2,
              dictGet, GridCoord.add, opposite, GridCoord.mk.injEq]
      | NORTH_WEST =>
          have h2 : (⟨x + -1, y + -1⟩ : GridCoord).y % 2 = 1 := by show (y + -1) % 2 = 1; omega
          refine ⟨⟨x + -1, y + -1⟩, ?_, ?_⟩
          · simp [getNeighbour, gridGetNeighbour, validateCoord, hex_vectors_even ⟨x, y⟩ hy,
              dictGet, GridCoord.add, GridCoord.mk.injEq]
          · simp [getNeighbour, gridGetNeighbour, validateCoord,
              hex_vectors_odd ⟨x + -1, y + -1⟩ h2, dictGet, GridCoord.add, opposite,
              GridCoord.mk.injEq]
      | SOUTH_WEST =>
          have h2 : (⟨x + -1, y + 1⟩ : GridCoord).y % 2 = 1 := by show (y + 1) % 2 = 1; omega
          refine ⟨⟨x + -1, y + 1⟩, ?_, ?_⟩
          · simp [getNeighbour, gridGetNeighbour, validateCoord, hex_vectors_even ⟨x, y⟩ hy,
              dictGet, GridCoord.add, GridCoord.mk.injEq]
          · simp [getNeighbour, gridGetNeighbour, validateCoord,
              hex_vectors_odd ⟨x + -1, y + 1⟩ h2, dictGet, GridCoord.add, opposite,
              GridCoord.mk.injEq]
      | EAST =>
          refine ⟨⟨x + 1, y⟩, ?_, ?_⟩
          · simp [getNeighbour, gridGetNeighbour, validateCoord, hex_vectors_even ⟨x, y⟩ hy,
              dictGet, GridCoord.add, GridCoord.mk.injEq]
          · simp [getNeighbour, gridGetNeighbour, validateCoord, hex_vectors_even ⟨x + 1, y⟩ hy,
              dictGet, GridCoord.add, opposite, GridCoord.mk.injEq]
      | WEST =>
          refine ⟨⟨x + -1, y⟩, ?_, ?_⟩
          · simp [getNeighbour, gridGetNeighbour, validateCoord, hex_vectors_even ⟨x, y⟩ hy,
              dictGet, GridCoord.add, GridCoord.mk.injEq]
          · simp [getNeighbour, gridGetNeighbour, validateCoord, hex_vectors_even ⟨x + -1, y⟩ hy,
              dictGet, GridCoord.add, opposite, GridCoord.mk.injEq]
    · have hy1 : y % 2 = 1 := by omega
      cases d with
      | NORTH => simp [directionVectors, hy] at hd
      | SOUTH => simp [directionVectors, hy] at hd
      | NORTH_EAST =>
          have h2 : (⟨x + 1, y + -1⟩ : GridCoord).y % 2 = 0 := by show (y + -1) % 2 = 0; omega
          refine ⟨⟨x + 1, y + -1⟩, ?_, ?_⟩
          · simp [getNeighbour, gridGetNeighbour, validateCoord, hex_vectors_odd ⟨x, y⟩ hy1,
              dictGet, GridCoord.add, GridCoord.mk.injEq]
          · simp [getNeighbour, gridGetNeighbour, validateCoord,
              hex_vectors_even ⟨x + 1, y + -1⟩ h2, dictGet, GridCoord.add, opposite,
              GridCoord.mk.injEq]
      | SOUTH_EAST =>
          have h2 : (⟨x + 1, y + 1⟩ : GridCoord).y % 2 = 0 := by show (y + 1) % 2 = 0; omega
          refine ⟨⟨x + 1, y + 1⟩, ?_, ?_⟩
          · simp [getNeighbour, gridGetNeighbour, validateCoord, hex_vectors_odd ⟨x, y⟩ hy1,
              dictGet, GridCoord.add, GridCoord.mk.injEq]
          · simp [getNeighbour, gridGetNeighbour, validateCoord,
              hex_vectors_even ⟨x + 1, y + 1⟩ h2, dictGet, GridCoord.add, opposite,
              GridCoord.mk.injEq]
      | NORTH_WEST =>
          have h2 : (⟨x, y + -1⟩ : GridCoord).y % 2 = 0 := by show (y + -1) % 2 = 0; omega
          refine ⟨⟨x, y + -1⟩, ?_, ?_⟩
          · simp [getNeighbour, gridGetNeighbour, validateCoord, hex_vectors_odd ⟨x, y⟩ hy1,
              dictGet, GridCoord.add, GridCoord.mk.injEq]
          · simp [getNeighbour, gridGetNeighbour, validateCoord,
              hex_vectors_even ⟨x, y + -1⟩ h2, dictGet, GridCoord.add, opposite,
              GridCoord.mk.injEq]
      | SOUTH_WEST =>
          have h2 : (⟨x, y + 1⟩ : GridCoord).y % 2 = 0 := by show (y + 1) % 2 = 0; omega
          refine ⟨⟨x, y + 1⟩, ?_, ?_⟩
          · simp [getNeighbour, gridGetNeighbour, validateCoord, hex_vectors_odd ⟨x, y⟩ hy1,
              dictGet, GridCoord.add, GridCoord.mk.injEq]
          · simp [getNeighbour, gridGetNeighbour, validateCoord,
              hex_vectors_even ⟨x, y + 1⟩ h2, dictGet, GridCoord.add, opposite,
              GridCoord.mk.injEq]
      | EAST =>
          refine ⟨⟨x + 1, y⟩, ?_, ?_⟩
          · simp [getNeighbour, gridGetNeighbour, validateCoord, hex_vectors_odd ⟨x, y⟩ hy1,
              dictGet, GridCoord.add, GridCoord.mk.injEq]
          · simp [getNeighbour, gridGetNeighbour, validateCoord, hex_vectors_odd ⟨x + 1, y⟩ hy1,
              dictGet, GridCoord.add, opposite, GridCoord.mk.injEq]
      | WEST =>
          refine ⟨⟨x + -1, y⟩, ?_, ?_⟩
          · simp [getNeighbour, gridGetNeighbour, validateCoord, hex_vectors_odd ⟨x, y⟩ hy1,
              dictGet, GridCoord.add, GridCoord.mk.injEq]
          · simp [getNeighbour, gridGetNeighbour, validateCoord, hex_vectors_odd ⟨x + -1, y⟩ hy1,
              dictGet, GridCoord.add, opposite, GridCoord.mk.injEq]

/-- C8 witness: the round trip on the hexagonal grid at the odd-row
coordinate (1,-1) going North-East. -/
theorem square_hex_neighbour_roundtrip_witness :
    ∃ m, getNeighbour .hex ⟨1, -1⟩ NORTH_EAST = .ok m ∧
      getNeighbour .hex m (opposite NORTH_EAST) = .ok ⟨1, -1⟩ :=
  square_hex_neighbour_roundtrip .hex ⟨1, -1⟩ NORTH_EAST (Or.inr rfl) (by decide)

/-- The triangle direction vectors on an "even" cell. -/
theorem tri_vectors_even (c : GridCoord) (h : triangleIsEven c = true) :
    directionVectors .triangle c =
      [(NORTH_WEST, ⟨-1, 1⟩), (NORTH_EAST, ⟨1, 1⟩), (SOUTH, ⟨1, -1⟩)] := by
  simp [directionVectors, h]

/-- The triangle direction vectors on an "odd" cell. -/
theorem tri_vectors_odd (c : GridCoord) (h : triangleIsEven c = false) :
    directionVectors .triangle c =
      [(NORTH, ⟨-1, 1⟩), (SOUTH_EAST, ⟨1, -1⟩), (SOUTH_WEST, ⟨-1, -1⟩)] := by
  simp [directionVectors, h]

/-- C10: on the triangular topology, every direction valid at a valid
coordinate leads to another valid coordinate: every triangular direction
vector changes both `x` and `y` by an odd amount, preserving the
equal-parity validity predicate. -/
theorem triangle_validity_closed (c : GridCoord) (d : CardinalDirection)
    (hc : validateCoord .triangle c = true)
    (hd : d ∈ (directionVectors .triangle c).map Prod.fst) :
    ∃ m, getNeighbour .triangle c d = .ok m ∧ validateCoord .triangle m = true := by
  obtain ⟨x, y⟩ := c
  have hxy : x % 2 = y % 2 := by simpa [validateCoord] using hc
  by_cases hx : x % 2 = 0
  · have he : triangleIsEven ⟨x, y⟩ = true := by simp [triangleIsEven, hx]
    cases d with
    | NORTH_WEST =>
        refine ⟨⟨x + -1, y + 1⟩, ?_, ?_⟩
        · simp [getNeighbour, triangleGetNeighbour, gridGetNeighbour, hc,
            tri_vectors_even ⟨x, y⟩ he, he, dictGet, GridCoord.add, triangleEvenDirs,
            GridCoord.mk.injEq]
        · simp only [validateCoord, decide_eq_true_eq]
          omega
    | NORTH_EAST =>
        refine ⟨⟨x + 1, y + 1⟩, ?_, ?_⟩
        · simp [getNeighbour, triangleGetNeighbour, gridGetNeighbour, hc,
            tri_vectors_even ⟨x, y⟩ he, he, dictGet, GridCoord.add, triangleEvenDirs,
            GridCoord.mk.injEq]
        · simp only [validateCoord, decide_eq_true_eq]
          omega
    | SOUTH =>
        refine ⟨⟨x + 1, y + -1⟩, ?_, ?_⟩
        · simp [getNeighbour, triangleGetNeighbour, gridGetNeighbour, hc,
            tri_vectors_even ⟨x, y⟩ he, he, dictGet, GridCoord.add, triangleEvenDirs,
            GridCoord.mk.injEq]
        · simp only [validateCoord, decide_eq_true_eq]
          omega
    | NORTH => simp [tri_vectors_even ⟨x, y⟩ he] at hd
    | EAST => simp [tri_vectors_even ⟨x, y⟩ he] at hd
    | SOUTH_EAST => simp [tri_vectors_even ⟨x, y⟩ he] at hd
    | SOUTH_WEST => simp [tri_vectors_even ⟨x, y⟩ he] at hd
    | WEST => simp [tri_vectors_even ⟨x, y⟩ he] at hd
  · have ho : triangleIsEven ⟨x, y⟩ = false := by simp [triangleIsEven, hx]
    cases d with
    | NORTH =>
        refine ⟨⟨x + -1, y + 1⟩, ?_, ?_⟩
        · simp [getNeighbour, triangleGetNeighbour, gridGetNeighbour, hc,
            tri_vectors_odd ⟨x, y⟩ ho, ho, dictGet, GridCoord.add, triangleOddDirs,
            GridCoord.mk.injEq]
        · simp only [validateCoord, decide_eq_true_eq]
          omega
    | SOUTH_EAST =>
        refine ⟨⟨x + 1, y + -1⟩, ?_, ?_⟩
        · simp [getNeighbour, triangleGetNeighbour, gridGetNeighbour, hc,
            tri_vectors_odd ⟨x, y⟩ ho, ho, dictGet, GridCoord.add, triangleOddDirs,
            GridCoord.mk.injEq]
        · simp only [validateCoord, decide_eq_true_eq]
          omega
    | SOUTH_WEST =>
        refine ⟨⟨x + -1, y + -1⟩, ?_, ?_⟩
        · simp [getNeighbour, triangleGetNeighbour, gridGetNeighbour, hc,
            tri_vectors_odd ⟨x, y⟩ ho, ho, dictGet, GridCoord.add, triangleOddDirs,
            GridCoord.mk.injEq]
        · simp only [validateCoord, decide_eq_true_eq]
          omega
    | NORTH_EAST => simp [tri_vectors_odd ⟨x, y⟩ ho] at hd
    | EAST => simp [tri_vectors_odd ⟨x, y⟩ ho] at hd
    | SOUTH => simp [tri_vectors_odd ⟨x, y⟩ ho] at hd
    | WEST => simp [tri_vectors_odd ⟨x, y⟩ ho] at hd
    | NORTH_WEST => simp [tri_vectors_odd ⟨x, y⟩ ho] at hd

/-- C10 witness: stepping North-West from the valid even cell (0,0) lands
on the valid cell (-1,1). -/
theorem triangle_validity_closed_witness :
    ∃ m, getNeighbour .triangle ⟨0, 0⟩ NORTH_WEST = .ok m ∧
      validateCoord .triangle m = true :=
  triangle_validity_closed ⟨0, 0⟩ NORTH_WEST (by decide) (by decide)

/-- The bounding-box update never changes the topology. -/
theorem bboxUpdate_topology (g : GridState) (c : GridCoord) :
    (bboxUpdate g c).topology = g.topology := by
  unfold bboxUpdate
  split <;> rfl

/-- After the bounding-box update, `has_data` is always set. -/
theorem bboxUpdate_has_data (g : GridState) (c : GridCoord) :
    (bboxUpdate g c).has_data = true := by
  unfold bboxUpdate
  split <;> simp_all

/-- On a grid that already has data, the bounding-box update only
expands the box. -/
theorem bboxUpdate_mono (g : GridState) (c : GridCoord) (h : g.has_data = true) :
    (bboxUpdate g c).min_x ≤ g.min_x ∧ g.max_x ≤ (bboxUpdate g c).max_x ∧
    (bboxUpdate g c).min_y ≤ g.min_y ∧ g.max_y ≤ (bboxUpdate g c).max_y := by
  unfold bboxUpdate
  rw [if_pos h]
  exact ⟨min_le_left _ _, le_max_left _ _, min_le_left _ _, le_max_left _ _⟩

/-- The bounding-box update always brings the written coordinate inside
the box. -/
theorem bboxUpdate_contains (g : GridState) (c : GridCoord) :
    inBbox (bboxUpdate g c) c := by
  unfold bboxUpdate inBbox
  split
  · exact ⟨min_le_right _ _, le_max_right _ _, min_le_right _ _, le_max_right _ _⟩
  · simp

/-- On a grid without data, the bounding-box update initialises the box
to the written coordinate. -/
theorem bboxUpdate_init (g : GridState) (c : GridCoord) (h : g.has_data = false) :
    (bboxUpdate g c).min_x = c.x ∧ (bboxUpdate g c).max_x = c.x ∧
    (bboxUpdate g c).min_y = c.y ∧ (bboxUpdate g c).max_y = c.y := by
  unfold bboxUpdate
  rw [if_neg (by simp [h])]
  exact ⟨rfl, rfl, rfl, rfl⟩

/-- Method `__setitem__` at an invalid coordinate raises before any mutation. -/
theorem setItem_invalid (g : GridState) (c : GridCoord) (colour : Int)
    (h : validateCoord g.topology c = false) :
    (setItem g c colour).1 = g := by
  unfold setItem
  rw [if_pos h]

/-- Method `__setitem__` at a valid coordinate carries exactly the updated
bounding box, whether or not the store/remove part then raises. -/
theorem setItem_bbox (g : GridState) (c : GridCoord) (colour : Int)
    (h : validateCoord g.topology c = true) :
    (setItem g c colour).1.min_x = (bboxUpdate g c).min_x ∧
    (setItem g c colour).1.max_x = (bboxUpdate g c).max_x ∧
    (setItem g c colour).1.min_y = (bboxUpdate g c).min_y ∧
    (setItem g c colour).1.max_y = (bboxUpdate g c).max_y := by
  unfold setItem
  rw [if_neg (by simp [h])]
  split
  · split <;> exact ⟨rfl, rfl, rfl, rfl⟩
  · exact ⟨rfl, rfl, rfl, rfl⟩

/-- Method `__setitem__` never changes the topology. -/
theorem setItem_topology (g : GridState) (c : GridCoord) (colour : Int) :
    (setItem g c colour).1.topology = g.topology := by
  unfold setItem
  split
  · rfl
  · split
    · split <;> exact bboxUpdate_topology g c
    · exact bboxUpdate_topology g c

/-- Method `__setitem__` at a valid coordinate always leaves `has_data` set. -/
theorem setItem_has_data_valid (g : GridState) (c : GridCoord) (colour : Int)
    (h : validateCoord g.topology c = true) :
    (setItem g c colour).1.has_data = true := by
  unfold setItem
  rw [if_neg (by simp [h])]
  split
  · split <;> exact bboxUpdate_has_data g c
  · exact bboxUpdate_has_data g c

/-- Method `__setitem__` preserves `has_data` once it is set. -/
theorem setItem_has_data (g : GridState) (c : GridCoord) (colour : Int)
    (h : g.has_data = true) :
    (setItem g c colour).1.has_data = true := by
  cases hv : validateCoord g.topology c with
  | false => rw [setItem_invalid g c colour hv]; exact h
  | true => exact setItem_has_data_valid g c colour hv

/-- Once a coordinate lies in the box of a grid with data, any later
`__setitem__` keeps it there. -/
theorem setItem_inBbox_mono (g : GridState) (c0 : GridCoord) (colour : Int) (p : GridCoord)
    (hd : g.has_data = true) (hp : inBbox g p) : inBbox (setItem g c0 colour).1 p := by
  cases hv : validateCoord g.topology c0 with
  | false => rw [setItem_invalid g c0 colour hv]; exact hp
  | true =>
      obtain ⟨b1, b2, b3, b4⟩ := setItem_bbox g c0 colour hv
      obtain ⟨m1, m2, m3, m4⟩ := bboxUpdate_mono g c0 hd
      exact ⟨b1 ▸ le_trans m1 hp.1, b2 ▸ le_trans hp.2.1 m2,
             b3 ▸ le_trans m3 hp.2.2.1, b4 ▸ le_trans hp.2.2.2 m4⟩

/-- A valid `__setitem__` brings its coordinate inside the box. -/
theorem setItem_contains (g : GridState) (c0 : GridCoord) (colour : Int)
    (hv : validateCoord g.topology c0 = true) :
    inBbox (setItem g c0 colour).1 c0 := by
  obtain ⟨b1, b2, b3, b4⟩ := setItem_bbox g c0 colour hv
  obtain ⟨k1, k2, k3, k4⟩ := bboxUpdate_contains g c0
  exact ⟨b1 ▸ k1, b2 ▸ k2, b3 ▸ k3, b4 ▸ k4⟩

/-- Coordinates inside the box of a grid with data stay inside it across
any further sequence of `set` calls. -/
theorem applySets_inBbox (ops : List (GridCoord × Int)) :
    ∀ (g : GridState) (p : GridCoord), g.has_data = true → inBbox g p →
      (applySets g ops).has_data = true ∧ inBbox (applySets g ops) p := by
  induction ops with
  | nil => intro g p hd hp; exact ⟨hd, hp⟩
  | cons op rest ih =>
      intro g p hd hp
      obtain ⟨c0, col0⟩ := op
      exact ih (setItem g c0 col0).1 p (setItem_has_data g c0 col0 hd)
        (setItem_inBbox_mono g c0 col0 p hd hp)

/-- Every valid coordinate written during a sequence of `set` calls lies
in the final fast bounding box. -/
theorem applySets_contains (ops : List (GridCoord × Int)) :
    ∀ (g : GridState) (c : GridCoord) (colour : Int),
      (c, colour) ∈ ops → validateCoord g.topology c = true →
      inBbox (applySets g ops) c := by
  induction ops with
  | nil => intro g c colour hmem _; cases hmem
  | cons op rest ih =>
      intro g c colour hmem hv
      obtain ⟨c0, col0⟩ := op
      rcases List.mem_cons.1 hmem with heq | htail
      · injection heq with h1 h2
        subst h1
        exact (applySets_inBbox rest (setItem g c col0).1 c
          (setItem_has_data_valid g c col0 hv) (setItem_contains g c col0 hv)).2
      · exact ih (setItem g c0 col0).1 c colour htail
          (by rw [setItem_topology]; exact hv)

/-- C9: the fast bounding box is monotone on a grid that has data (its
minima never increase, its maxima never decrease under any single `set`
call, even a failing one), it is initialised to the first written
coordinate on the first write, and after any sequence of `set` calls it
contains every valid coordinate passed to `set`. -/
theorem bbox_monotone_and_contains :
    (∀ (g : GridState) (c : GridCoord) (colour : Int), g.has_data = true →
      (setItem g c colour).1.min_x ≤ g.min_x ∧ g.max_x ≤ (setItem g c colour).1.max_x ∧
      (setItem g c colour).1.min_y ≤ g.min_y ∧ g.max_y ≤ (setItem g c colour).1.max_y) ∧
    (∀ (g : GridState) (c : GridCoord) (colour : Int), g.has_data = false →
      validateCoord g.topology c = true →
      (setItem g c colour).1.min_x = c.x ∧ (setItem g c colour).1.max_x = c.x ∧
      (setItem g c colour).1.min_y = c.y ∧ (setItem g c colour).1.max_y = c.y) ∧
    (∀ (ops : List (GridCoord × Int)) (g : GridState) (c : GridCoord) (colour : Int),
      (c, colour) ∈ ops → validateCoord g.topology c = true →
      inBbox (applySets g ops) c) := by
  refine ⟨?_, ?_, ?_⟩
  · intro g c colour hd
    cases hv : validateCoord g.topology c with
    | false =>
        rw [setItem_invalid g c colour hv]
        exact ⟨le_refl _, le_refl _, le_refl _, le_refl _⟩
    | true =>
        obtain ⟨b1, b2, b3, b4⟩ := setItem_bbox g c colour hv
        obtain ⟨m1, m2, m3, m4⟩ := bboxUpdate_mono g c hd
        exact ⟨b1 ▸ m1, b2 ▸ m2, b3 ▸ m3, b4 ▸ m4⟩
  · intro g c colour hd hv
    obtain ⟨b1, b2, b3, b4⟩ := setItem_bbox g c colour hv
    obtain ⟨i1, i2, i3, i4⟩ := bboxUpdate_init g c hd
    exact ⟨b1 ▸ i1, b2 ▸ i2, b3 ▸ i3, b4 ▸ i4⟩
  · intro ops g c colour hmem hv
    exact applySets_contains ops g c colour hmem hv

/-- C9 witness: the three parts of the theorem at concrete inputs — a
second write on a grid that already has data, a first write on a fresh
grid, and a one-element write sequence. -/
theorem bbox_monotone_and_contains_witness :
    ((setItem (setItem squareGrid0 ⟨1, 2⟩ 5).1 ⟨3, 4⟩ 7).1.min_x ≤
        (setItem squareGrid0 ⟨1, 2⟩ 5).1.min_x ∧
      (setItem squareGrid0 ⟨1, 2⟩ 5).1.max_x ≤
        (setItem (setItem squareGrid0 ⟨1, 2⟩ 5).1 ⟨3, 4⟩ 7).1.max_x ∧
      (setItem (setItem squareGrid0 ⟨1, 2⟩ 5).1 ⟨3, 4⟩ 7).1.min_y ≤
        (setItem squareGrid0 ⟨1, 2⟩ 5).1.min_y ∧
      (setItem squareGrid0 ⟨1, 2⟩ 5).1.max_y ≤
        (setItem (setItem squareGrid0 ⟨1, 2⟩ 5).1 ⟨3, 4⟩ 7).1.max_y) ∧
    ((setItem squareGrid0 ⟨2, 3⟩ 5).1.min_x = 2 ∧
      (setItem squareGrid0 ⟨2, 3⟩ 5).1.max_x = 2 ∧
      (setItem squareGrid0 ⟨2, 3⟩ 5).1.min_y = 3 ∧
      (setItem squareGrid0 ⟨2, 3⟩ 5).1.max_y = 3) ∧
    inBbox (applySets squareGrid0 [(⟨2, 3⟩, 5)]) ⟨2, 3⟩ :=
  ⟨bbox_monotone_and_contains.1 (setItem squareGrid0 ⟨1, 2⟩ 5).1 ⟨3, 4⟩ 7 rfl,
   bbox_monotone_and_contains.2.1 squareGrid0 ⟨2, 3⟩ 5 rfl rfl,
   bbox_monotone_and_contains.2.2 [(⟨2, 3⟩, 5)] squareGrid0 ⟨2, 3⟩ 5 (by simp) rfl⟩

end PyAnt
